import Mathlib

/-
Shallow embedding of the balance-consistency core of the expense_tracker
repository (Django app `expense`): models.py (MoneyAccount, Category,
Transaction, HiddenCategory and the overridden Transaction.save) and the
view-layer transaction/category handlers in views.py.

Conventions of the embedding:
* All money values are Python `Decimal` with two fraction digits in the
  source (`DecimalField(..., decimal_places=2)`); arithmetic on such values
  is exact, so we represent them as integers counting cents (`ℤ`).
  Percentages in `CategorySpendingView.get` are likewise 2-dp decimals and
  are represented as integers counting hundredths of a percent.
* Database tables are association lists keyed by primary key.  A Django
  `UPDATE ... WHERE pk = k` is a map over the list, an `INSERT` is a cons.
* Each HTTP handler becomes a function from a database state (plus the
  request data) to a result that carries the database as it stands when the
  response (or the uncaught exception) leaves the handler.  In-memory model
  objects that the handlers mutate before saving are threaded explicitly as
  (primary key, balance) values, because the handlers rely on Python object
  identity: `validated_data.get('money_account', money_account)` yields the
  very object `money_account` when the field is absent, but a freshly
  fetched object (with the stored balance) when the field is present, even
  for the same primary key; and Django model `!=` compares primary keys.
-/

namespace ExpenseTracker

/-- Transaction and category type: the `income` / `expense` choice enum. -/
inductive TxType
  | income
  | expense
deriving DecidableEq, Repr

/-- Model `MoneyAccount` of expense/models.py; `balance` is in cents. -/
structure MoneyAccount where
  user : Nat
  name : String
  accountType : String
  currency : String
  balance : ℤ
deriving DecidableEq, Repr

/-- Model `Category` of expense/models.py; the `user` field (added by
migration 0003, used throughout views.py) is `none` for admin/global
categories. -/
structure Category where
  name : String
  categoryType : TxType
  user : Option Nat
deriving DecidableEq, Repr

/-- Calendar date of a transaction (`DateField`). -/
structure Date where
  year : Nat
  month : Nat
  day : Nat
deriving DecidableEq, Repr

/-- Model `Transaction` of expense/models.py; `category` and `moneyAccount`
are foreign keys (primary keys of the referenced rows); `amount` in cents. -/
structure Transaction where
  user : Nat
  category : Nat
  transactionType : TxType
  amount : ℤ
  moneyAccount : Nat
  date : Date
deriving DecidableEq, Repr

/-- The relational state: tables for MoneyAccount, Category, Transaction
(keyed by primary key) and HiddenCategory rows as (user, category) pairs
(migration 0004, unique_together). -/
structure DB where
  accounts : List (Nat × MoneyAccount)
  categories : List (Nat × Category)
  transactions : List (Nat × Transaction)
  hidden : List (Nat × Nat)
deriving DecidableEq, Repr

/-- Error outcomes surfaced by the handlers: the spec taxonomy
(NotFound, Forbidden, CategoryTypeMismatch, InsufficientBalance,
ValidationError) plus Django's ProtectedError raised when deleting a
category still referenced by a transaction (`on_delete=PROTECT`). -/
inductive Err
  | notFound
  | forbidden
  | categoryTypeMismatch
  | insufficientBalance
  | validationError
  | protectedError
deriving DecidableEq, Repr

/-- Result of a handler: the database as left behind, both on success and
on failure (a failure after some rows were already saved leaves those rows
changed, exactly as an uncaught exception does in the source). -/
inductive OpResult
  | ok (db : DB)
  | err (e : Err) (db : DB)
deriving DecidableEq, Repr

/-- Row lookup by primary key in an association-list table. -/
def findPair {α : Type} (l : List (Nat × α)) (k : Nat) : Option α :=
  match l with
  | [] => none
  | (k', v) :: rest => if k' = k then some v else findPair rest k

/-- SQL UPDATE of the balance column of the account row with key `aid`. -/
def setBalance (l : List (Nat × MoneyAccount)) (aid : Nat) (b : ℤ) :
    List (Nat × MoneyAccount) :=
  l.map (fun p =>
    match p with
    | (k, m) => if k = aid then (k, { m with balance := b }) else (k, m))

/-- Whether a key is present in a table. -/
def hasKey {α : Type} (l : List (Nat × α)) (k : Nat) : Bool :=
  l.any (fun p => decide (p.1 = k))

/-- Persisting a transaction record: Django `save` issues an UPDATE when the
primary key exists and an INSERT otherwise. -/
def upsertTxn (l : List (Nat × Transaction)) (tid : Nat) (t : Transaction) :
    List (Nat × Transaction) :=
  if hasKey l tid then
    l.map (fun p =>
      match p with
      | (k, u) => if k = tid then (k, t) else (k, u))
  else (tid, t) :: l

/-- Fresh primary key for an INSERT (auto-increment). -/
def nextTxId (l : List (Nat × Transaction)) : Nat :=
  (l.map Prod.fst).foldr max 0 + 1

/-- Signed balance delta of a transaction: +amount for income, -amount for
expense (section 4.1 of the spec words it this way; the source writes the
two branches out). -/
def txDelta (ty : TxType) (amount : ℤ) : ℤ :=
  match ty with
  | .income => amount
  | .expense => -amount

/-- Write events performed by `Transaction.save`, in order. -/
inductive Write
  | account (aid : Nat) (balance : ℤ)
  | record (tid : Nat) (t : Transaction)
deriving DecidableEq, Repr

/-- Model of the overridden `Transaction.save` (expense/models.py lines
50-62).  `bal` is the in-memory balance of the Python object
`self.money_account` at the moment `save` runs (it can differ from the
stored balance when a view handler mutated the object first).  Income adds
the amount; expense raises ValueError("Insufficient balance ...") when the
in-memory balance is below the amount, else subtracts it.  On success the
account row is saved first, then the transaction record under key `tid`.
The second component lists the writes performed, in order. -/
def Transaction.save (db : DB) (bal : ℤ) (tid : Nat) (t : Transaction) :
    OpResult × List Write :=
  match t.transactionType with
  | .income =>
      let b := bal + t.amount
      (.ok { db with accounts := setBalance db.accounts t.moneyAccount b,
                     transactions := upsertTxn db.transactions tid t },
       [.account t.moneyAccount b, .record tid t])
  | .expense =>
      if bal < t.amount then (.err .insufficientBalance db, [])
      else
        let b := bal - t.amount
        (.ok { db with accounts := setBalance db.accounts t.moneyAccount b,
                       transactions := upsertTxn db.transactions tid t },
         [.account t.moneyAccount b, .record tid t])

/-- Model of `TransactionView.post` (views.py lines 221-233): serializer
validation (the referenced category and money account must exist, else 400
ValidationError), then the create-time check
`category.category_type != transaction_type` (400), then
`serializer.save(user=request.user)` which INSERTs via `Transaction.save`
against the freshly fetched account object (stored balance).  `today` is
the auto_now_add date. -/
def TransactionView.post (db : DB) (uid categoryId : Nat) (ty : TxType)
    (amount : ℤ) (accountId : Nat) (today : Date) : OpResult :=
  match findPair db.categories categoryId with
  | none => .err .validationError db
  | some cat =>
    match findPair db.accounts accountId with
    | none => .err .validationError db
    | some ma =>
      if cat.categoryType ≠ ty then .err .categoryTypeMismatch db
      else
        let t : Transaction :=
          { user := uid, category := categoryId, transactionType := ty,
            amount := amount, moneyAccount := accountId, date := today }
        (Transaction.save db ma.balance (nextTxId db.transactions) t).1

/-- Request body of a PATCH update: absent fields default to the stored
values (partial-update semantics).  `user`, `id`, `date` are read-only in
the serializer and cannot be supplied. -/
structure UpdateReq where
  category : Option Nat
  transactionType : Option TxType
  amount : Option ℤ
  moneyAccount : Option Nat
deriving DecidableEq, Repr

/-- Model of `TransactionDetailView.patch` (views.py lines 285-321; the body
of `put`, lines 242-278, is identical apart from required fields).
Steps, in source order:
1. `get_object_or_404(Transaction, pk=pk, user=request.user)` (404);
2. `money_account = transaction.money_account` loads the account object
   with its stored balance;
3. serializer validation: provided foreign keys must resolve (400);
4. reverse the old effect on the in-memory `money_account` object;
5. apply the new effect: when the request carries a `money_account` field
   the target is a freshly fetched object with the stored balance (even for
   the same primary key), otherwise it is the very same mutated object;
   an expense whose amount exceeds that object's in-memory balance returns
   400 with nothing persisted;
6. `money_account.save()` only when the primary keys differ (Django model
   equality compares primary keys), then `new_money_account.save()`;
7. `serializer.save()` updates the record fields and calls
   `Transaction.save`, which applies the new effect once more to the
   in-memory account object and may raise ValueError (insufficient
   balance) after the account rows were already saved. -/
def TransactionDetailView.patch (db : DB) (uid tid : Nat) (req : UpdateReq) :
    OpResult :=
  match findPair db.transactions tid with
  | none => .err .notFound db
  | some t =>
    if t.user ≠ uid then .err .notFound db
    else
      match findPair db.accounts t.moneyAccount with
      | none => .err .notFound db
      | some ma0 =>
        if req.category.any (fun c => decide (findPair db.categories c = none))
        then .err .validationError db
        else
          let newType := req.transactionType.getD t.transactionType
          let newAmount := (req.amount).getD t.amount
          let bal1 : ℤ :=
            match t.transactionType with
            | .income => ma0.balance - t.amount
            | .expense => ma0.balance + t.amount
          match req.moneyAccount with
          | none =>
            match newType with
            | .income =>
              let bal2 := bal1 + newAmount
              let db1 : DB :=
                { db with accounts := setBalance db.accounts t.moneyAccount bal2 }
              let t' : Transaction :=
                { t with category := req.category.getD t.category,
                         transactionType := newType, amount := newAmount }
              (Transaction.save db1 bal2 tid t').1
            | .expense =>
              if bal1 < newAmount then .err .insufficientBalance db
              else
                let bal2 := bal1 - newAmount
                let db1 : DB :=
                  { db with accounts := setBalance db.accounts t.moneyAccount bal2 }
                let t' : Transaction :=
                  { t with category := req.category.getD t.category,
                           transactionType := newType, amount := newAmount }
                (Transaction.save db1 bal2 tid t').1
          | some newAid =>
            match findPair db.accounts newAid with
            | none => .err .validationError db
            | some maNew =>
              match newType with
              | .income =>
                let bal2 := maNew.balance + newAmount
                let db1 : DB :=
                  if newAid ≠ t.moneyAccount
                  then { db with accounts := setBalance db.accounts t.moneyAccount bal1 }
                  else db
                let db2 : DB :=
                  { db1 with accounts := setBalance db1.accounts newAid bal2 }
                let t' : Transaction :=
                  { t with category := req.category.getD t.category,
                           transactionType := newType, amount := newAmount,
                           moneyAccount := newAid }
                (Transaction.save db2 bal2 tid t').1
              | .expense =>
                if maNew.balance < newAmount then .err .insufficientBalance db
                else
                  let bal2 := maNew.balance - newAmount
                  let db1 : DB :=
                    if newAid ≠ t.moneyAccount
                    then { db with accounts := setBalance db.accounts t.moneyAccount bal1 }
                    else db
                  let db2 : DB :=
                    { db1 with accounts := setBalance db1.accounts newAid bal2 }
                  let t' : Transaction :=
                    { t with category := req.category.getD t.category,
                             transactionType := newType, amount := newAmount,
                             moneyAccount := newAid }
                  (Transaction.save db2 bal2 tid t').1

/-- Model of `TransactionDetailView.put` (views.py lines 242-278): its body
is identical to `patch` but the serializer runs with partial=False, so
`category`, `transaction_type`, `amount` and `money_account` are all
required and always present in validated_data. -/
def TransactionDetailView.put (db : DB) (uid tid : Nat) (categoryId : Nat)
    (ty : TxType) (amount : ℤ) (accountId : Nat) : OpResult :=
  TransactionDetailView.patch db uid tid
    ⟨some categoryId, some ty, some amount, some accountId⟩

/-- Model of `TransactionDetailView.delete` (views.py lines 324-340):
look up the transaction (404), reverse its effect on the account
unconditionally (income subtracts the amount, expense adds it back, with
no sufficiency check), save the account, then DELETE the record. -/
def TransactionDetailView.delete (db : DB) (uid tid : Nat) : OpResult :=
  match findPair db.transactions tid with
  | none => .err .notFound db
  | some t =>
    if t.user ≠ uid then .err .notFound db
    else
      match findPair db.accounts t.moneyAccount with
      | none => .err .notFound db
      | some ma =>
        let b : ℤ :=
          match t.transactionType with
          | .income => ma.balance - t.amount
          | .expense => ma.balance + t.amount
        .ok { db with
              accounts := setBalance db.accounts t.moneyAccount b,
              transactions := db.transactions.filter (fun p => decide (p.1 ≠ tid)) }

/-- HiddenCategory membership test, as `get_or_create` and the list view
filter on (user, category). -/
def hiddenContains (h : List (Nat × Nat)) (uid cid : Nat) : Bool :=
  h.any (fun p => decide (p.1 = uid) && decide (p.2 = cid))

/-- Whether some transaction row references the category (the condition
under which Django PROTECT blocks `category.delete()`). -/
def catReferenced (db : DB) (cid : Nat) : Bool :=
  db.transactions.any (fun p => decide (p.2.category = cid))

/-- Result of `CategoryDetailView.delete`: hard deletion, per-user hiding,
or an error, with the resulting database. -/
inductive CatDelResult
  | deleted (db : DB)
  | hiddenOk (db : DB)
  | err (e : Err) (db : DB)
deriving DecidableEq, Repr

/-- Model of `CategoryDetailView.delete` (views.py lines 126-144):
`get_object_or_404(Category, pk=pk)` (404, no owner filter); if the
category's user is the requester it is hard-deleted (`category.delete()`,
which raises ProtectedError when a transaction still references it and
cascades away the category's HiddenCategory rows otherwise); if the
category is global (user is null) a (user, category) HiddenCategory row is
get_or_created (a no-op when already present) and 200 is returned;
otherwise 403 Forbidden. -/
def CategoryDetailView.delete (db : DB) (uid cid : Nat) : CatDelResult :=
  match findPair db.categories cid with
  | none => .err .notFound db
  | some cat =>
    if cat.user = some uid then
      if catReferenced db cid then .err .protectedError db
      else
        .deleted { db with
          categories := db.categories.filter (fun p => decide (p.1 ≠ cid)),
          hidden := db.hidden.filter (fun p => decide (p.2 ≠ cid)) }
    else if cat.user = none then
      .hiddenOk { db with
        hidden := if hiddenContains db.hidden uid cid then db.hidden
                  else (uid, cid) :: db.hidden }
    else .err .forbidden db

/-- Model of `CategoryView.get` (views.py lines 87-97), projected to the
listed primary keys: categories whose user is the requester or null,
excluding ids hidden for the requester. -/
def CategoryView.get (db : DB) (uid : Nat) : List Nat :=
  (db.categories.filter (fun p =>
      (decide (p.2.user = some uid) || decide (p.2.user = none))
      && !(hiddenContains db.hidden uid p.1))).map Prod.fst

/-- Round-half-even integer division (the rounding of Python
`round(Decimal, 2)`), for a positive divisor: the nearest integer to
`a / b`, ties to the even neighbour. -/
def roundHalfEvenDiv (a b : ℤ) : ℤ :=
  let n := Int.ediv a b
  let r := Int.emod a b
  if 2 * r < b then n
  else if b < 2 * r then n + 1
  else if Int.emod n 2 = 0 then n else n + 1

/-- First-occurrence deduplication of the grouped category names. -/
def dedupNames (l : List String) : List String :=
  l.foldl (fun acc x => if acc.contains x then acc else acc ++ [x]) []

/-- Name of the category row referenced by a transaction (the SQL join
`values('category__name')`; foreign keys always resolve in well-formed
states, the default is never reached there). -/
def categoryName (db : DB) (cid : Nat) : String :=
  ((findPair db.categories cid).map Category.name).getD ""

/-- One entry of the category-spending response; `percentage` counts
hundredths of a percent. -/
structure SpendingEntry where
  category : String
  totalSpent : ℤ
  percentage : ℤ
deriving DecidableEq, Repr

/-- Response of `CategorySpendingView.get`. -/
structure SpendingResponse where
  totalExpense : ℤ
  categories : List SpendingEntry
deriving DecidableEq, Repr

/-- Expense transactions of the user in the requested month (the filter of
`CategorySpendingView.get`). -/
def spendingTxns (db : DB) (uid year month : Nat) : List (Nat × Transaction) :=
  db.transactions.filter (fun p =>
    decide (p.2.user = uid) && decide (p.2.transactionType = TxType.expense)
    && decide (p.2.date.year = year) && decide (p.2.date.month = month))

/-- Total expense of the month (`aggregate(Sum('amount'))`, 0 when empty). -/
def spendingTotal (db : DB) (uid year month : Nat) : ℤ :=
  ((spendingTxns db uid year month).map (fun p => p.2.amount)).sum

/-- Spending entry for one grouped category name: its summed amount, and
`round(category_total / total_expense * 100, 2)` when the month's total is
positive, else 0 (exact rational division then half-even rounding; the
source's 28-significant-digit Decimal intermediate cannot move a 2-dp
result at these magnitudes). -/
def spendingEntry (db : DB) (uid year month : Nat) (nm : String) :
    SpendingEntry :=
  let ct := (((spendingTxns db uid year month).filter
      (fun p => decide (categoryName db p.2.category = nm))).map
      (fun p => p.2.amount)).sum
  { category := nm, totalSpent := ct,
    percentage :=
      if 0 < spendingTotal db uid year month
      then roundHalfEvenDiv (ct * 10000) (spendingTotal db uid year month)
      else 0 }

/-- Model of `CategorySpendingView.get` (views.py lines 428-458): filter the
month's expense transactions of the user, total them, group by category
name and compute each group's share. -/
def CategorySpendingView.get (db : DB) (uid year month : Nat) :
    SpendingResponse :=
  { totalExpense := spendingTotal db uid year month,
    categories :=
      (dedupNames ((spendingTxns db uid year month).map
          (fun p => categoryName db p.2.category))).map
        (spendingEntry db uid year month) }

/-- Database carried by a handler result. -/
def dbOf : OpResult → DB
  | .ok db => db
  | .err _ db => db

/-- Error carried by a handler result, if any. -/
def errOf : OpResult → Option Err
  | .ok _ => none
  | .err e _ => some e

/-- Success test of a handler result. -/
def isOk : OpResult → Bool
  | .ok _ => true
  | .err _ _ => false

/-- Database carried by a category-deletion result. -/
def dbOfCat : CatDelResult → DB
  | .deleted db => db
  | .hiddenOk db => db
  | .err _ db => db

/-- Whether a category-deletion result is a hard deletion. -/
def isDeleted : CatDelResult → Bool
  | .deleted _ => true
  | _ => false

/-- Whether a category-deletion result is the per-user hide success. -/
def isHiddenOk : CatDelResult → Bool
  | .hiddenOk _ => true
  | _ => false

/-- Stored balance of an account, if the row exists. -/
def accountBalance (db : DB) (aid : Nat) : Option ℤ :=
  (findPair db.accounts aid).map MoneyAccount.balance

/-- Net signed effect of the currently stored transactions referencing an
account: sum of income amounts minus sum of expense amounts.  The spec's
balance invariant says the stored balance equals the initial balance plus
this value. -/
def netEffect (db : DB) (aid : Nat) : ℤ :=
  ((db.transactions.filter (fun p => decide (p.2.moneyAccount = aid))).map
    (fun p => txDelta p.2.transactionType p.2.amount)).sum

/-! Concrete states used to evaluate the handlers on specific inputs.
Money values are cents: 10000 = 100.00. -/

/-- State with one cash account (balance 100.00) and one personal expense
category. -/
def exDb1 : DB :=
  { accounts := [(2, { user := 1, name := "W", accountType := "cash",
                       currency := "USD", balance := 10000 })],
    categories := [(10, { name := "F", categoryType := .expense,
                          user := some 1 })],
    transactions := [], hidden := [] }

/-- Creating an expense of 20.00 on `exDb1` (balance becomes 80.00). -/
def exCreate1 : OpResult := TransactionView.post exDb1 1 10 .expense 2000 2 ⟨2025, 1, 1⟩

/-- PATCH changing the amount of that expense from 20.00 to 30.00. -/
def exPatch1 : OpResult :=
  TransactionDetailView.patch (dbOf exCreate1) 1 1 ⟨none, none, some 3000, none⟩

/-- State with one cash account (balance 50.00) and one personal expense
category. -/
def exDb2 : DB :=
  { accounts := [(2, { user := 1, name := "W", accountType := "cash",
                       currency := "USD", balance := 5000 })],
    categories := [(10, { name := "F", categoryType := .expense,
                          user := some 1 })],
    transactions := [], hidden := [] }

/-- Creating an expense of 20.00 on `exDb2` (balance becomes 30.00). -/
def exCreate2 : OpResult := TransactionView.post exDb2 1 10 .expense 2000 2 ⟨2025, 1, 1⟩

/-- PUT changing the amount of that expense from 20.00 to 30.00 (same
account, same category, same type). -/
def exPut2 : OpResult :=
  TransactionDetailView.put (dbOf exCreate2) 1 1 10 .expense 3000 2

/-- State with an income category and a cash account (balance 100.00). -/
def exDb6 : DB :=
  { accounts := [(2, { user := 1, name := "W", accountType := "cash",
                       currency := "USD", balance := 10000 })],
    categories := [(11, { name := "S", categoryType := .income,
                          user := some 1 })],
    transactions := [], hidden := [] }

/-- Creating an income of amount -50.00 on `exDb6`. -/
def exCreate6 : OpResult := TransactionView.post exDb6 1 11 .income (-5000) 2 ⟨2025, 1, 2⟩

/-- A personal category of user 1 and a transaction still referencing it. -/
def exDb7 : DB :=
  { accounts := [(2, { user := 1, name := "W", accountType := "cash",
                       currency := "USD", balance := 10000 })],
    categories := [(5, { name := "P", categoryType := .expense,
                         user := some 1 })],
    transactions := [(1, { user := 1, category := 5,
                           transactionType := .expense, amount := 1000,
                           moneyAccount := 2, date := ⟨2025, 1, 3⟩ })],
    hidden := [] }

/-- A global (admin) category, id 5, visible to users 1 and 2. -/
def exDb7g : DB :=
  { accounts := [],
    categories := [(5, { name := "G", categoryType := .income, user := none })],
    transactions := [], hidden := [] }

/-- The global category row of `exDb7g`. -/
def exCat7g : Category := { name := "G", categoryType := .income, user := none }

/-- An income transaction of 50.00 on an account whose stored balance is
only 10.00 (deleting it must still succeed and leave -40.00). -/
def exDb8 : DB :=
  { accounts := [(2, { user := 1, name := "W", accountType := "cash",
                       currency := "USD", balance := 1000 })],
    categories := [(11, { name := "S", categoryType := .income,
                          user := some 1 })],
    transactions := [(1, { user := 1, category := 11,
                           transactionType := .income, amount := 5000,
                           moneyAccount := 2, date := ⟨2025, 1, 4⟩ })],
    hidden := [] }

/-- Two expense transactions, 30.00 in category X and 70.00 in category Y,
in January 2025. -/
def exDb9 : DB :=
  { accounts := [(2, { user := 1, name := "W", accountType := "cash",
                       currency := "USD", balance := 0 })],
    categories := [(1, { name := "X", categoryType := .expense, user := none }),
                   (2, { name := "Y", categoryType := .expense, user := none })],
    transactions := [(1, { user := 1, category := 1,
                           transactionType := .expense, amount := 3000,
                           moneyAccount := 2, date := ⟨2025, 1, 5⟩ }),
                     (2, { user := 1, category := 2,
                           transactionType := .expense, amount := 7000,
                           moneyAccount := 2, date := ⟨2025, 1, 9⟩ })],
    hidden := [] }

/-- An income transaction record used to exercise `Transaction.save`. -/
def exTxn10 : Transaction :=
  { user := 1, category := 10, transactionType := .income, amount := 200,
    moneyAccount := 2, date := ⟨2025, 1, 6⟩ }

/-- State after `exCreate2`: balance 30.00 and the 20.00 expense stored
under id 1 (used to apply theorems at concrete inputs). -/
def exDb2' : DB :=
  { accounts := [(2, { user := 1, name := "W", accountType := "cash",
                       currency := "USD", balance := 3000 })],
    categories := [(10, { name := "F", categoryType := .expense,
                          user := some 1 })],
    transactions := [(1, { user := 1, category := 10,
                           transactionType := .expense, amount := 2000,
                           moneyAccount := 2, date := ⟨2025, 1, 1⟩ })],
    hidden := [] }

/-- The account row of `exDb1`, `exDb6` and `exDb2'` (balance 100.00 in
`exDb1`/`exDb6`). -/
def exMa1 : MoneyAccount :=
  { user := 1, name := "W", accountType := "cash", currency := "USD",
    balance := 10000 }

/-- The expense category row of `exDb1` and `exDb2`. -/
def exCatF : Category := { name := "F", categoryType := .expense, user := some 1 }

/-- The income category row of `exDb6` and `exDb8`. -/
def exCatS : Category := { name := "S", categoryType := .income, user := some 1 }

/-- The transaction row of `exDb8`. -/
def exTxn8 : Transaction :=
  { user := 1, category := 11, transactionType := .income, amount := 5000,
    moneyAccount := 2, date := ⟨2025, 1, 4⟩ }

/-- The account row of `exDb8` (balance 10.00). -/
def exMa8 : MoneyAccount :=
  { user := 1, name := "W", accountType := "cash", currency := "USD",
    balance := 1000 }

/-- State reached by creating an income of 40.00 on `exDb6` (used to apply
the round-trip theorem at a concrete input). -/
def exDb6' : DB :=
  { accounts := [(2, { user := 1, name := "W", accountType := "cash",
                       currency := "USD", balance := 14000 })],
    categories := [(11, { name := "S", categoryType := .income,
                          user := some 1 })],
    transactions := [(1, { user := 1, category := 11,
                           transactionType := .income, amount := 4000,
                           moneyAccount := 2, date := ⟨2025, 1, 9⟩ })],
    hidden := [] }

/-! Association-list lemmas. -/

lemma findPair_cons {α : Type} (k' : Nat) (v : α) (l : List (Nat × α))
    (k : Nat) :
    findPair ((k', v) :: l) k = if k' = k then some v else findPair l k :=
  rfl

lemma setBalance_cons (k' : Nat) (v : MoneyAccount)
    (l : List (Nat × MoneyAccount)) (k : Nat) (b : ℤ) :
    setBalance ((k', v) :: l) k b =
      (if k' = k then (k', { v with balance := b }) else (k', v))
        :: setBalance l k b :=
  rfl

lemma hiddenContains_cons (u' c' : Nat) (h : List (Nat × Nat)) (u c : Nat) :
    hiddenContains ((u', c') :: h) u c =
      ((decide (u' = u) && decide (c' = c)) || hiddenContains h u c) :=
  rfl

lemma findPair_map_replace {tid : Nat} (t : Transaction) :
    ∀ (l : List (Nat × Transaction)), hasKey l tid = true →
      findPair (l.map (fun p =>
        match p with
        | (k, u) => if k = tid then (k, t) else (k, u))) tid = some t := by
  intro l
  induction l with
  | nil => intro h; simp [hasKey] at h
  | cons hd tl ih =>
    obtain ⟨k, v⟩ := hd
    intro h
    rw [List.map_cons]
    by_cases hk : k = tid
    · subst hk
      show findPair ((if k = k then (k, t) else (k, v)) :: _) k = some t
      rw [if_pos rfl]
      show (if k = k then some t else _) = some t
      rw [if_pos rfl]
    · have htl : hasKey tl tid = true := by
        simp [hasKey, List.any_cons, hk] at h ⊢
        exact h
      show findPair ((if k = tid then (k, t) else (k, v)) :: _) tid = some t
      rw [if_neg hk]
      show (if k = tid then some v else _) = some t
      rw [if_neg hk]
      exact ih htl

lemma findPair_upsert_self (l : List (Nat × Transaction)) (tid : Nat)
    (t : Transaction) : findPair (upsertTxn l tid t) tid = some t := by
  unfold upsertTxn
  by_cases h : hasKey l tid = true
  · rw [if_pos h]; exact findPair_map_replace t l h
  · rw [if_neg h]; simp [findPair]

lemma findPair_setBalance_self {k : Nat} {m : MoneyAccount} (b : ℤ) :
    ∀ {l : List (Nat × MoneyAccount)}, findPair l k = some m →
      findPair (setBalance l k b) k = some { m with balance := b } := by
  intro l
  induction l with
  | nil => intro h; simp [findPair] at h
  | cons hd tl ih =>
    obtain ⟨k', v⟩ := hd
    intro h
    rw [findPair_cons] at h
    rw [setBalance_cons]
    by_cases hk : k' = k
    · rw [if_pos hk] at h ⊢
      rw [findPair_cons, if_pos hk]
      rw [Option.some.injEq] at h
      rw [h]
    · rw [if_neg hk] at h ⊢
      rw [findPair_cons, if_neg hk]
      exact ih h

lemma findPair_setBalance_ne {k a : Nat} (h : a ≠ k) (b : ℤ) :
    ∀ (l : List (Nat × MoneyAccount)),
      findPair (setBalance l k b) a = findPair l a := by
  intro l
  induction l with
  | nil => simp [setBalance, findPair]
  | cons hd tl ih =>
    obtain ⟨k', v⟩ := hd
    rw [setBalance_cons, findPair_cons]
    by_cases hk : k' = k
    · have hka : ¬ (k' = a) := fun hx => h (hx ▸ hk)
      rw [if_pos hk, findPair_cons, if_neg hka, if_neg hka]
      exact ih
    · rw [if_neg hk, findPair_cons]
      by_cases ha : k' = a
      · rw [if_pos ha, if_pos ha]
      · rw [if_neg ha, if_neg ha]
        exact ih

lemma findPair_filter_ne {α : Type} (l : List (Nat × α)) (k : Nat) :
    findPair (l.filter (fun p => decide (p.1 ≠ k))) k = none := by
  induction l with
  | nil => simp [findPair]
  | cons hd tl ih =>
    obtain ⟨k', v⟩ := hd
    rw [List.filter_cons]
    by_cases hk : k' = k
    · subst hk
      have hc : (decide ((k', v).1 ≠ k')) = false := by simp
      simp only [hc, Bool.false_eq_true, if_false]
      exact ih
    · have hc : (decide ((k', v).1 ≠ k)) = true := by simp [hk]
      simp only [hc, if_true]
      rw [findPair_cons, if_neg hk]
      exact ih

lemma hiddenContains_iff {u c : Nat} : ∀ {h : List (Nat × Nat)},
    hiddenContains h u c = true ↔ (u, c) ∈ h := by
  intro h
  induction h with
  | nil => simp [hiddenContains]
  | cons hd tl ih =>
    obtain ⟨u', c'⟩ := hd
    rw [hiddenContains_cons]
    rw [Bool.or_eq_true, Bool.and_eq_true, decide_eq_true_eq,
      decide_eq_true_eq, List.mem_cons, ih, Prod.mk.injEq]
    constructor
    · rintro (⟨h1, h2⟩ | hr)
      · exact Or.inl ⟨h1.symm, h2.symm⟩
      · exact Or.inr hr
    · rintro (⟨h1, h2⟩ | hm)
      · exact Or.inl ⟨h1.symm, h2.symm⟩
      · exact Or.inr hm

lemma hiddenContains_cons_ne {h : List (Nat × Nat)} {uid cid w x : Nat}
    (hw : w ≠ uid) :
    hiddenContains ((uid, cid) :: h) w x = hiddenContains h w x := by
  rw [hiddenContains_cons]
  have : (decide (uid = w)) = false := by
    simp
    exact fun hx => hw hx.symm
  rw [this, Bool.false_and, Bool.false_or]

/-- Membership in the category list view, unfolded to the table. -/
lemma mem_categoryView_iff {db : DB} {uid cid : Nat} :
    cid ∈ CategoryView.get db uid ↔
      ∃ c, (cid, c) ∈ db.categories ∧ (c.user = some uid ∨ c.user = none) ∧
        hiddenContains db.hidden uid cid = false := by
  simp only [CategoryView.get, List.mem_map, List.mem_filter]
  constructor
  · rintro ⟨⟨k, c⟩, ⟨hmem, hpred⟩, rfl⟩
    simp only [Bool.and_eq_true, Bool.or_eq_true, decide_eq_true_eq,
      Bool.not_eq_true'] at hpred
    exact ⟨c, hmem, hpred.1, hpred.2⟩
  · rintro ⟨c, hmem, hcond, hhid⟩
    refine ⟨(cid, c), ⟨hmem, ?_⟩, rfl⟩
    simp only [Bool.and_eq_true, Bool.or_eq_true, decide_eq_true_eq,
      Bool.not_eq_true']
    exact ⟨hcond, hhid⟩

/-- Evaluation of `TransactionDetailView.delete` on an owned transaction
whose account row exists: it always succeeds, writes the reversed balance
and removes the record. -/
lemma delete_eval (db : DB) (uid tid : Nat) (t : Transaction)
    (ma : MoneyAccount) (ht : findPair db.transactions tid = some t)
    (hu : t.user = uid) (hma : findPair db.accounts t.moneyAccount = some ma) :
    TransactionDetailView.delete db uid tid =
      .ok { db with
            accounts := setBalance db.accounts t.moneyAccount
              (ma.balance - txDelta t.transactionType t.amount),
            transactions := db.transactions.filter (fun p => decide (p.1 ≠ tid)) } := by
  unfold TransactionDetailView.delete
  rw [ht]
  simp only [hu, ne_eq, not_true_eq_false, if_false]
  rw [hma]
  cases hty : t.transactionType <;> simp [txDelta, sub_eq_add_neg]

/-! Claim theorems. -/

/-- C1.  The spec invariant `balance == initialBalance + net effect of the
stored transactions` does not survive an update: on an account of initial
balance 100.00, creating an expense of 20.00 and then PATCHing its amount
to 30.00 leaves the stored balance at 40.00 (the update handler reverses
and applies in memory, saves, and then `Transaction.save` applies the new
effect a second time), while the invariant demands 70.00. -/
theorem update_breaks_balance_invariant :
    errOf exPatch1 = none ∧
    accountBalance (dbOf exPatch1) 2 = some 4000 ∧
    (10000 : ℤ) + netEffect (dbOf exPatch1) 2 = 7000 ∧
    accountBalance (dbOf exPatch1) 2 ≠ some (10000 + netEffect (dbOf exPatch1) 2) := by
  decide

/-- C2.  An update that fails with the insufficient-balance error can still
change persisted state: on an account of initial balance 50.00 holding an
expense of 20.00 (stored balance 30.00), a PUT changing the amount to
30.00 passes the view's own check (against the freshly fetched balance
30.00), persists the account at 0.00, and then fails inside
`Transaction.save` with the insufficient-balance ValueError — the response
is the insufficient-balance failure, yet the stored balance has moved from
30.00 to 0.00 while the transaction record still says 20.00. -/
theorem put_insufficient_partial_write :
    accountBalance (dbOf exCreate2) 2 = some 3000 ∧
    errOf exPut2 = some .insufficientBalance ∧
    accountBalance (dbOf exPut2) 2 = some 0 ∧
    (findPair (dbOf exPut2).transactions 1).map Transaction.amount = some 2000 := by
  decide

/-- C3.  Creating an expense whose amount exceeds the target account's
stored balance fails with InsufficientBalance and returns the database
unchanged: the transaction is not created and the balance is untouched. -/
theorem create_insufficient_rejected (db : DB) (uid cid aid : Nat)
    (amount : ℤ) (today : Date) (cat : Category) (ma : MoneyAccount)
    (hcat : findPair db.categories cid = some cat)
    (hma : findPair db.accounts aid = some ma)
    (hty : cat.categoryType = .expense)
    (hlt : ma.balance < amount) :
    TransactionView.post db uid cid .expense amount aid today =
      .err .insufficientBalance db := by
  unfold TransactionView.post
  rw [hcat, hma]
  dsimp only
  rw [if_neg (not_not_intro hty)]
  unfold Transaction.save
  dsimp only
  rw [if_pos hlt]

/-- Witness for C3: balance 100.00, expense 150.00 is rejected with the
database unchanged. -/
theorem create_insufficient_rejected_case :
    TransactionView.post exDb1 1 10 .expense 15000 2 ⟨2025, 1, 7⟩ =
      .err .insufficientBalance exDb1 :=
  create_insufficient_rejected exDb1 1 10 2 15000 ⟨2025, 1, 7⟩ exCatF exMa1
    rfl rfl rfl (by decide)

/-- C5.  Creating a transaction whose type differs from the referenced
category's type fails with CategoryTypeMismatch and returns the database
unchanged — no account mutation. -/
theorem create_category_type_mismatch (db : DB) (uid cid aid : Nat)
    (ty : TxType) (amount : ℤ) (today : Date) (cat : Category)
    (ma : MoneyAccount)
    (hcat : findPair db.categories cid = some cat)
    (hma : findPair db.accounts aid = some ma)
    (hne : cat.categoryType ≠ ty) :
    TransactionView.post db uid cid ty amount aid today =
      .err .categoryTypeMismatch db := by
  unfold TransactionView.post
  rw [hcat, hma]
  dsimp only
  rw [if_pos hne]

/-- Witness for C5: an expense submitted against the income category fails
with CategoryTypeMismatch, database unchanged. -/
theorem create_category_type_mismatch_case :
    TransactionView.post exDb6 1 11 .expense 1000 2 ⟨2025, 1, 8⟩ =
      .err .categoryTypeMismatch exDb6 :=
  create_category_type_mismatch exDb6 1 11 2 .expense 1000 ⟨2025, 1, 8⟩
    exCatS exMa1 rfl rfl (by decide)

/-- C8.  Deleting an owned transaction always succeeds: the reversal
(income subtracts the amount, expense adds it back) is applied to the
account with no sufficiency check, and the record is removed. -/
theorem delete_always_reverses (db : DB) (uid tid : Nat) (t : Transaction)
    (ma : MoneyAccount)
    (ht : findPair db.transactions tid = some t)
    (hu : t.user = uid)
    (hma : findPair db.accounts t.moneyAccount = some ma) :
    isOk (TransactionDetailView.delete db uid tid) = true ∧
    accountBalance (dbOf (TransactionDetailView.delete db uid tid))
        t.moneyAccount
      = some (ma.balance - txDelta t.transactionType t.amount) ∧
    findPair (dbOf (TransactionDetailView.delete db uid tid)).transactions tid
      = none := by
  rw [delete_eval db uid tid t ma ht hu hma]
  refine ⟨rfl, ?_, ?_⟩
  · show (findPair (setBalance db.accounts t.moneyAccount
      (ma.balance - txDelta t.transactionType t.amount)) t.moneyAccount).map
        MoneyAccount.balance = _
    rw [findPair_setBalance_self _ hma]
    rfl
  · exact findPair_filter_ne _ _

/-- Witness for C8: deleting an income of 50.00 from an account whose
stored balance is 10.00 succeeds and leaves -40.00 — the reversal is not
sufficiency-checked. -/
theorem delete_always_reverses_case :
    isOk (TransactionDetailView.delete exDb8 1 1) = true ∧
    accountBalance (dbOf (TransactionDetailView.delete exDb8 1 1)) 2 =
      some (-4000) ∧
    findPair (dbOf (TransactionDetailView.delete exDb8 1 1)).transactions 1 =
      none := by
  have h := delete_always_reverses exDb8 1 1 exTxn8 exMa8 rfl rfl rfl
  exact ⟨h.1, h.2.1, h.2.2⟩

/-- C9.  Every entry of the category-spending response carries
percentage = categoryTotal / totalExpense × 100 rounded half-even to two
decimal places (here: hundredths of a percent via `roundHalfEvenDiv`), and
0 when the month's total expense is not positive. -/
theorem categorySpending_percentage (db : DB) (uid year month : Nat)
    (e : SpendingEntry)
    (he : e ∈ (CategorySpendingView.get db uid year month).categories) :
    e.percentage =
      if 0 < (CategorySpendingView.get db uid year month).totalExpense
      then roundHalfEvenDiv (e.totalSpent * 10000)
             ((CategorySpendingView.get db uid year month).totalExpense)
      else 0 := by
  simp only [CategorySpendingView.get, List.mem_map] at he
  obtain ⟨nm, hnm, rfl⟩ := he
  rfl

/-- Witness for C9, the spec's example: expenses 30.00 (category X) and
70.00 (category Y) in the month give total 100.00 with percentages 30.00
and 70.00, and the first entry satisfies the percentage equation. -/
theorem categorySpending_percentage_case :
    (CategorySpendingView.get exDb9 1 2025 1).totalExpense = 10000 ∧
    (CategorySpendingView.get exDb9 1 2025 1).categories =
      [⟨"X", 3000, 3000⟩, ⟨"Y", 7000, 7000⟩] ∧
    (⟨"X", 3000, 3000⟩ : SpendingEntry).percentage =
      (if 0 < (CategorySpendingView.get exDb9 1 2025 1).totalExpense
       then roundHalfEvenDiv
              ((⟨"X", 3000, 3000⟩ : SpendingEntry).totalSpent * 10000)
              ((CategorySpendingView.get exDb9 1 2025 1).totalExpense)
       else 0) :=
  ⟨by decide, by decide,
    categorySpending_percentage exDb9 1 2025 1 ⟨"X", 3000, 3000⟩ (by decide)⟩

/-- C10.  Every invocation of `Transaction.save` applies the transaction's
effect to the in-memory balance of the currently referenced account
(income adds the amount; expense checks sufficiency against that balance
and subtracts), and on success writes the account row first and the
transaction record second; an insufficient expense fails with no write. -/
theorem save_applies_effect_in_order (db : DB) (bal : ℤ) (tid : Nat)
    (t : Transaction) :
    ((t.transactionType = .income ∨ t.amount ≤ bal) →
      Transaction.save db bal tid t =
        (.ok { db with
               accounts := setBalance db.accounts t.moneyAccount
                 (bal + txDelta t.transactionType t.amount),
               transactions := upsertTxn db.transactions tid t },
         [.account t.moneyAccount (bal + txDelta t.transactionType t.amount),
          .record tid t])) ∧
    (t.transactionType = .expense → bal < t.amount →
      Transaction.save db bal tid t = (.err .insufficientBalance db, [])) := by
  constructor
  · intro h
    cases hty : t.transactionType with
    | income =>
      unfold Transaction.save
      rw [hty]
      simp [txDelta]
    | expense =>
      have hle : t.amount ≤ bal := by
        cases h with
        | inl h' =>
          rw [h'] at hty
          exact absurd hty (by decide)
        | inr h' => exact h'
      unfold Transaction.save
      rw [hty, if_neg (not_lt.mpr hle)]
      simp [txDelta, sub_eq_add_neg]
  · intro hty hlt
    unfold Transaction.save
    rw [hty, if_pos hlt]

/-- Witness for C10: saving an income of 2.00 against an in-memory balance
of 5.00 writes the account at 7.00 and then the record. -/
theorem save_applies_effect_in_order_case :
    Transaction.save exDb1 500 1 exTxn10 =
      (.ok { exDb1 with
             accounts := setBalance exDb1.accounts 2 700,
             transactions := upsertTxn exDb1.transactions 1 exTxn10 },
       [.account 2 700, .record 1 exTxn10]) := by
  have h := (save_applies_effect_in_order exDb1 500 1 exTxn10).1 (Or.inl rfl)
  exact h

/-- C6, counterexample.  A create request with the non-positive amount
-50.00 is not rejected: no error is returned and the stored transaction's
amount is -50.00, which is not strictly positive. -/
theorem nonpositive_amount_accepted :
    errOf exCreate6 = none ∧
    (findPair (dbOf exCreate6).transactions 1).map Transaction.amount =
      some (-5000) ∧
    ¬ (0 < (-5000 : ℤ)) := by
  decide

/-- C6, amended.  The serializer performs no positivity validation: an
income create with any amount ≤ 0 (valid category and account, matching
types) succeeds, stores the transaction with that amount, and adds the
amount to the balance. -/
theorem nonpositive_income_create_succeeds (db : DB) (uid cid aid : Nat)
    (amount : ℤ) (today : Date) (cat : Category) (ma : MoneyAccount)
    (hcat : findPair db.categories cid = some cat)
    (hma : findPair db.accounts aid = some ma)
    (hty : cat.categoryType = .income)
    (hnp : amount ≤ 0) :
    isOk (TransactionView.post db uid cid .income amount aid today) = true ∧
    accountBalance (dbOf (TransactionView.post db uid cid .income amount aid today)) aid
      = some (ma.balance + amount) ∧
    findPair
        (dbOf (TransactionView.post db uid cid .income amount aid today)).transactions
        (nextTxId db.transactions)
      = some { user := uid, category := cid, transactionType := .income,
               amount := amount, moneyAccount := aid, date := today } := by
  unfold TransactionView.post
  rw [hcat, hma]
  dsimp only
  rw [if_neg (not_not_intro hty)]
  unfold Transaction.save
  dsimp only
  refine ⟨rfl, ?_, ?_⟩
  · show (findPair (setBalance db.accounts aid (ma.balance + amount)) aid).map
      MoneyAccount.balance = some (ma.balance + amount)
    rw [findPair_setBalance_self _ hma]
    rfl
  · exact findPair_upsert_self _ _ _

/-- Witness for C6's amended statement at amount -50.00 on balance 100.00:
the create succeeds, stores amount -50.00 and leaves balance 50.00. -/
theorem nonpositive_income_create_succeeds_case :
    isOk exCreate6 = true ∧
    accountBalance (dbOf exCreate6) 2 = some 5000 ∧
    findPair (dbOf exCreate6).transactions 1 =
      some { user := 1, category := 11, transactionType := .income,
             amount := -5000, moneyAccount := 2, date := ⟨2025, 1, 2⟩ } := by
  have h := nonpositive_income_create_succeeds exDb6 1 11 2 (-5000)
    ⟨2025, 1, 2⟩ exCatS exMa1 rfl rfl rfl (by decide)
  exact ⟨h.1, h.2.1, h.2.2⟩

/-- C4.  A successful create followed by deleting the created transaction
restores every account balance exactly to its value before the create. -/
theorem create_delete_roundtrip (db : DB) (uid cid aid : Nat) (ty : TxType)
    (amount : ℤ) (today : Date) (db' : DB)
    (h : TransactionView.post db uid cid ty amount aid today = .ok db') :
    isOk (TransactionDetailView.delete db' uid (nextTxId db.transactions)) = true ∧
    ∀ a, accountBalance
          (dbOf (TransactionDetailView.delete db' uid (nextTxId db.transactions))) a
        = accountBalance db a := by
  unfold TransactionView.post at h
  cases hcat : findPair db.categories cid with
  | none => rw [hcat] at h; exact OpResult.noConfusion h
  | some cat =>
  rw [hcat] at h
  dsimp only at h
  cases hma : findPair db.accounts aid with
  | none => rw [hma] at h; exact OpResult.noConfusion h
  | some ma =>
  rw [hma] at h
  dsimp only at h
  by_cases hty : cat.categoryType ≠ ty
  · rw [if_pos hty] at h; exact OpResult.noConfusion h
  rw [if_neg hty] at h
  cases ty with
  | income =>
    unfold Transaction.save at h
    dsimp only at h
    rw [OpResult.ok.injEq] at h
    subst h
    rw [delete_eval _ uid (nextTxId db.transactions)
      { user := uid, category := cid, transactionType := .income,
        amount := amount, moneyAccount := aid, date := today }
      { ma with balance := ma.balance + amount }
      (findPair_upsert_self _ _ _) rfl (findPair_setBalance_self _ hma)]
    refine ⟨rfl, ?_⟩
    intro a
    by_cases ha : a = aid
    · subst ha
      unfold accountBalance
      dsimp only [dbOf]
      rw [findPair_setBalance_self _ (findPair_setBalance_self _ hma), hma]
      dsimp only [txDelta]
      simp only [Option.map_some', Option.some.injEq]
      omega
    · unfold accountBalance
      dsimp only [dbOf]
      rw [findPair_setBalance_ne ha, findPair_setBalance_ne ha]
  | expense =>
    unfold Transaction.save at h
    dsimp only at h
    by_cases hlt : ma.balance < amount
    · rw [if_pos hlt] at h
      exact OpResult.noConfusion h
    rw [if_neg hlt] at h
    dsimp only at h
    rw [OpResult.ok.injEq] at h
    subst h
    rw [delete_eval _ uid (nextTxId db.transactions)
      { user := uid, category := cid, transactionType := .expense,
        amount := amount, moneyAccount := aid, date := today }
      { ma with balance := ma.balance - amount }
      (findPair_upsert_self _ _ _) rfl (findPair_setBalance_self _ hma)]
    refine ⟨rfl, ?_⟩
    intro a
    by_cases ha : a = aid
    · subst ha
      unfold accountBalance
      dsimp only [dbOf]
      rw [findPair_setBalance_self _ (findPair_setBalance_self _ hma), hma]
      dsimp only [txDelta]
      simp only [Option.map_some', Option.some.injEq]
      omega
    · unfold accountBalance
      dsimp only [dbOf]
      rw [findPair_setBalance_ne ha, findPair_setBalance_ne ha]

/-- Witness for C4: create an income of 40.00 (balance 100.00 → 140.00),
delete it, and the balance of account 2 is back to 100.00. -/
theorem create_delete_roundtrip_case :
    isOk (TransactionDetailView.delete exDb6' 1 1) = true ∧
    accountBalance (dbOf (TransactionDetailView.delete exDb6' 1 1)) 2 =
      accountBalance exDb6 2 := by
  have h := create_delete_roundtrip exDb6 1 11 2 .income 4000 ⟨2025, 1, 9⟩
    exDb6' (by decide)
  exact ⟨h.1, h.2 2⟩

/-- C7, counterexample.  A category owned by the requester is not
hard-deleted when a transaction still references it: `category.delete()`
raises ProtectedError (the foreign key is PROTECT) and the category row
remains. -/
theorem own_category_delete_protected :
    CategoryDetailView.delete exDb7 1 5 = .err .protectedError exDb7 ∧
    isDeleted (CategoryDetailView.delete exDb7 1 5) = false ∧
    findPair (dbOfCat (CategoryDetailView.delete exDb7 1 5)).categories 5 =
      some { name := "P", categoryType := .expense, user := some 1 } := by
  decide

/-- C7, amended.  Ownership trichotomy of `CategoryDetailView.delete`, with
the PROTECT proviso on the hard-delete arm: a category owned by the
requester is hard-deleted when no transaction references it and fails with
ProtectedError otherwise; a global category (owner null) gets an
idempotent (user, category) hidden marker — a repeat call is a no-op
success — after which the requester's list omits it while any other user's
list is unchanged; a category owned by a different user fails Forbidden. -/
theorem deleteCategory_trichotomy (db : DB) (uid cid : Nat) (cat : Category)
    (hcat : findPair db.categories cid = some cat) :
    (cat.user = some uid → catReferenced db cid = false →
       isDeleted (CategoryDetailView.delete db uid cid) = true ∧
       findPair (dbOfCat (CategoryDetailView.delete db uid cid)).categories cid
         = none) ∧
    (cat.user = some uid → catReferenced db cid = true →
       CategoryDetailView.delete db uid cid = .err .protectedError db) ∧
    (cat.user = none →
       isHiddenOk (CategoryDetailView.delete db uid cid) = true ∧
       (uid, cid) ∈ (dbOfCat (CategoryDetailView.delete db uid cid)).hidden ∧
       CategoryDetailView.delete (dbOfCat (CategoryDetailView.delete db uid cid))
           uid cid
         = .hiddenOk (dbOfCat (CategoryDetailView.delete db uid cid)) ∧
       cid ∉ CategoryView.get (dbOfCat (CategoryDetailView.delete db uid cid)) uid ∧
       (∀ w, w ≠ uid →
          CategoryView.get (dbOfCat (CategoryDetailView.delete db uid cid)) w
            = CategoryView.get db w)) ∧
    (∀ v, cat.user = some v → v ≠ uid →
       CategoryDetailView.delete db uid cid = .err .forbidden db) := by
  refine ⟨?_, ?_, ?_, ?_⟩
  · intro hu href
    unfold CategoryDetailView.delete
    rw [hcat]
    dsimp only
    rw [if_pos hu, href]
    simp only [Bool.false_eq_true, if_false]
    exact ⟨rfl, findPair_filter_ne _ _⟩
  · intro hu href
    unfold CategoryDetailView.delete
    rw [hcat]
    dsimp only
    rw [if_pos hu, href, if_pos rfl]
  · intro hu
    have h1 : ¬ (cat.user = some uid) := by rw [hu]; simp
    unfold CategoryDetailView.delete
    rw [hcat]
    dsimp only
    rw [if_neg h1, if_pos hu]
    by_cases hmem : hiddenContains db.hidden uid cid = true
    · rw [if_pos hmem]
      refine ⟨rfl, hiddenContains_iff.mp hmem, ?_, ?_, ?_⟩
      · show CategoryDetailView.delete db uid cid = .hiddenOk db
        unfold CategoryDetailView.delete
        rw [hcat]
        dsimp only
        rw [if_neg h1, if_pos hu, if_pos hmem]
      · show cid ∉ CategoryView.get db uid
        intro hmem'
        obtain ⟨c, _, _, hhidf⟩ := mem_categoryView_iff.mp hmem'
        rw [hmem] at hhidf
        exact Bool.noConfusion hhidf
      · intro w hw
        rfl
    · rw [if_neg hmem]
      have hm2 : hiddenContains ((uid, cid) :: db.hidden) uid cid = true := by
        rw [hiddenContains_cons]
        simp
      refine ⟨rfl, List.mem_cons_self _ _, ?_, ?_, ?_⟩
      · show CategoryDetailView.delete
            { db with hidden := (uid, cid) :: db.hidden } uid cid
          = .hiddenOk { db with hidden := (uid, cid) :: db.hidden }
        unfold CategoryDetailView.delete
        have hcat2 : findPair
            ({ db with hidden := (uid, cid) :: db.hidden } : DB).categories cid
          = some cat := hcat
        rw [hcat2]
        dsimp only
        rw [if_neg h1, if_pos hu]
        have : hiddenContains
            ({ db with hidden := (uid, cid) :: db.hidden } : DB).hidden uid cid
          = true := hm2
        rw [this]
        simp only [if_true]
      · show cid ∉ CategoryView.get
          { db with hidden := (uid, cid) :: db.hidden } uid
        intro hmem'
        obtain ⟨c, _, _, hhidf⟩ := mem_categoryView_iff.mp hmem'
        have hf : hiddenContains ((uid, cid) :: db.hidden) uid cid = false := hhidf
        rw [hm2] at hf
        exact Bool.noConfusion hf
      · intro w hw
        show CategoryView.get { db with hidden := (uid, cid) :: db.hidden } w
          = CategoryView.get db w
        unfold CategoryView.get
        have hfil : ∀ p ∈ db.categories,
            ((decide (p.2.user = some w) || decide (p.2.user = none))
              && !(hiddenContains ((uid, cid) :: db.hidden) w p.1))
            = ((decide (p.2.user = some w) || decide (p.2.user = none))
              && !(hiddenContains db.hidden w p.1)) := by
          intro p _
          rw [hiddenContains_cons_ne hw]
        show (List.filter _ db.categories).map Prod.fst
          = (List.filter _ db.categories).map Prod.fst
        rw [List.filter_congr hfil]
  · intro v hv hvne
    have h1 : ¬ (cat.user = some uid) := by
      rw [hv]
      simp only [Option.some.injEq]
      exact hvne
    have h2 : ¬ (cat.user = none) := by rw [hv]; simp
    unfold CategoryDetailView.delete
    rw [hcat]
    dsimp only
    rw [if_neg h1, if_neg h2]

/-- Witness for C7's amended statement: user 1 hides the global category 5
of `exDb7g`; the hide succeeds and records the marker, a repeat hide is a
no-op success, user 1's list omits category 5 and user 2's list is
unchanged. -/
theorem deleteCategory_trichotomy_case :
    isHiddenOk (CategoryDetailView.delete exDb7g 1 5) = true ∧
    (1, 5) ∈ (dbOfCat (CategoryDetailView.delete exDb7g 1 5)).hidden ∧
    CategoryDetailView.delete (dbOfCat (CategoryDetailView.delete exDb7g 1 5)) 1 5
      = .hiddenOk (dbOfCat (CategoryDetailView.delete exDb7g 1 5)) ∧
    5 ∉ CategoryView.get (dbOfCat (CategoryDetailView.delete exDb7g 1 5)) 1 ∧
    CategoryView.get (dbOfCat (CategoryDetailView.delete exDb7g 1 5)) 2
      = CategoryView.get exDb7g 2 := by
  have h := (deleteCategory_trichotomy exDb7g 1 5 exCat7g rfl).2.2.1 rfl
  exact ⟨h.1, h.2.1, h.2.2.1, h.2.2.2.1, h.2.2.2.2 2 (by decide)⟩

end ExpenseTracker
